import Mathlib

/-!
Verification of the serializer core of `serde-wasm-bindgen` (`src/ser.rs`):
a shallow embedding of the serde→JS value conversion, and theorems checking
the natural-language specification against it.
-/

set_option maxHeartbeats 1000000

namespace SerdeWasmBindgen

/-- Outcome of a serializer operation: success (`Ok`), a recoverable serde
error carrying its message (`Err(Error::custom(msg))`), or a Rust panic
(`unwrap()` failure or a firing `debug_assert!`). -/
inductive SerOutcome (α : Type) where
  | ok (a : α)
  | error (msg : String)
  | panic
deriving Repr

/-- A JS byte buffer: either a `Uint8Array::view` aliasing wasm linear memory
at `ptr`/`len`, or a freshly allocated JS-owned copy of the data
(`Uint8Array::new`). -/
inductive JsBytes where
  | view (ptr len : Nat)
  | copy (data : List Nat)
deriving Repr, DecidableEq

/-- The host (JS) value model produced by the serializer.  A JS `Object`
is its ordered field list (property creation order); a JS `Map` is the
ordered log of `Map::set` calls performed on it. -/
inductive JsValue where
  | undefined
  | bool (b : Bool)
  | num (n : Int)
  | str (s : String)
  | bytes (b : JsBytes)
  | array (elems : List JsValue)
  | jsMap (entries : List (JsValue × JsValue))
  | obj (fields : List (String × JsValue))
deriving Repr

/-- `SerOutcome.map`: apply `f` to a successful result, propagate errors and
panics unchanged. -/
def SerOutcome.map {α β : Type} (f : α → β) : SerOutcome α → SerOutcome β
  | .ok a => .ok (f a)
  | .error m => .error m
  | .panic => .panic

/-- The serde data model consumed by the serializer: one constructor per
`serde::Serializer` entry point implemented in `ser.rs`.  Composite
constructors carry the length / name / variant-index arguments of the
corresponding entry point exactly as the Rust signatures do (`f32`/`f64`
are omitted: like the other `forward_to_into!` scalars they convert
directly and no claim concerns them). -/
inductive Value where
  | vBool (b : Bool)
  | vI8 (n : Int)
  | vI16 (n : Int)
  | vI32 (n : Int)
  | vU8 (n : Nat)
  | vU16 (n : Nat)
  | vU32 (n : Nat)
  | vI64 (n : Int)
  | vU64 (n : Nat)
  | vStr (s : String)
  | vChar (c : Char)
  | vBytes (data : List Nat)
  | vNone
  | vSome (v : Value)
  | vUnit
  | vUnitStruct (name : String)
  | vUnitVariant (name : String) (idx : Nat) (variant : String)
  | vNewtypeStruct (name : String) (v : Value)
  | vNewtypeVariant (name : String) (idx : Nat) (variant : String) (v : Value)
  | vSeq (len : Option Nat) (elems : List Value)
  | vTuple (len : Nat) (elems : List Value)
  | vTupleStruct (name : String) (len : Nat) (elems : List Value)
  | vTupleVariant (name : String) (idx : Nat) (variant : String) (len : Nat)
      (elems : List Value)
  | vMap (len : Option Nat) (pairs : List (Value × Value))
  | vStruct (name : String) (len : Nat) (fields : List (String × Value))
  | vStructVariant (name : String) (idx : Nat) (variant : String) (len : Nat)
      (fields : List (String × Value))

/-- The host environment: which low-level `Reflect::set` operations the JS
host rejects.  `rejectSet fields key value` is `some e` when assigning
property `key` (with the already-converted `value`) on an object currently
holding `fields` throws the JS exception `e`, and `none` when the
assignment succeeds.  (On the fresh plain objects the serializer creates a
real JS host never rejects, but the error taxonomy of the spec covers the
possibility, so the embedding keeps it abstract.) -/
structure HostEnv where
  rejectSet : List (String × JsValue) → String → JsValue → Option String

/-- The standard host environment: `Reflect::set` always succeeds (the
behaviour of an actual JS engine on fresh plain objects). -/
def stdEnv : HostEnv := ⟨fun _ _ _ => none⟩

/-- Modelled from the spec: `static_str_to_js` lives in the crate root (not
under `src/`); it interns a static Rust string as the equivalent host
string value. -/
def static_str_to_js (s : String) : JsValue := .str s

/-- Modelled from the spec: `convert_error` lives in the crate root (not
under `src/`); it wraps a host (JS) exception into the serializer error
type, preserving its human-readable message. -/
def convert_error (e : String) : String := e

/-- `Reflect::set` on a plain JS object: overwrite in place when the
property already exists, otherwise append (JS property creation order). -/
def objSet (fields : List (String × JsValue)) (k : String) (v : JsValue) :
    List (String × JsValue) :=
  if fields.any (fun p => p.1 = k) then
    fields.map (fun p => if p.1 = k then (k, v) else p)
  else
    fields ++ [(k, v)]

/-- `VariantSerializer::end`: take the inner serializer result (`?`
propagates its failure), then build a fresh object and `Reflect::set` the
single field named `variant` to it — with `.unwrap()`, so a host rejection
is a panic, not an error. -/
def variantSerializerEnd (env : HostEnv) (variant : String)
    (inner : SerOutcome JsValue) : SerOutcome JsValue :=
  match inner with
  | .ok value =>
    match env.rejectSet [] variant value with
    | some _ => .panic
    | none => .ok (.obj [(variant, value)])
  | .error m => .error m
  | .panic => .panic

/-- `MapSerializer` state: the `Map` being built (as the ordered log of
`Map::set` calls) and the pending `next_key`. -/
structure MapSerializerState where
  target : List (JsValue × JsValue)
  next_key : Option JsValue

/-- `MAX_SAFE_INTEGER` (`serialize_i64`): 2^53 − 1. -/
def MAX_SAFE_INTEGER : Int := 9007199254740991

/-- `MIN_SAFE_INTEGER` (`serialize_i64`): −(2^53 − 1). -/
def MIN_SAFE_INTEGER : Int := -MAX_SAFE_INTEGER

/-- `MAX_SAFE_INTEGER` as used by `serialize_u64`. -/
def MAX_SAFE_INTEGER_U64 : Nat := 9007199254740991

/-- The error message `serialize_i64`/`serialize_u64` produce for an
out-of-range value `v`, from
`format_args!("{} can\x27t be represented as a JavaScript number", v)`. -/
def unrepresentableMsg (v : String) : String :=
  v ++ " can\x27t be represented as a JavaScript number"

mutual

/-- The Dispatcher (`impl ser::Serializer for &Serializer`): one case per
entry point of `ser.rs`.  `_name`, `_variant_index` and `_len` arguments
are ignored exactly where the source ignores them.  `serialize_i64`/`u64`
convert in the safe range (where the `as f64` cast is exact, so the result
is the equal number) and otherwise fail with the formatted message;
`serialize_char` is `JsString::from_code_point1` (total on Rust `char`s);
`serialize_bytes` copies into a fresh JS buffer; option/unit/newtype and
variant cases are as in the source, composites drive the builders below. -/
def serializeValue (env : HostEnv) : Value → SerOutcome JsValue
  | .vBool b => .ok (.bool b)
  | .vI8 n => .ok (.num n)
  | .vI16 n => .ok (.num n)
  | .vI32 n => .ok (.num n)
  | .vU8 n => .ok (.num n)
  | .vU16 n => .ok (.num n)
  | .vU32 n => .ok (.num n)
  | .vI64 n =>
    if MIN_SAFE_INTEGER ≤ n ∧ n ≤ MAX_SAFE_INTEGER then .ok (.num n)
    else .error (unrepresentableMsg (toString n))
  | .vU64 n =>
    if n ≤ MAX_SAFE_INTEGER_U64 then .ok (.num n)
    else .error (unrepresentableMsg (toString n))
  | .vStr s => .ok (.str s)
  | .vChar c => .ok (.str (String.singleton c))
  | .vBytes data => .ok (.bytes (.copy data))
  | .vNone => .ok .undefined
  | .vSome v => serializeValue env v
  | .vUnit => .ok .undefined
  | .vUnitStruct _ => .ok .undefined
  | .vUnitVariant _ _ variant => .ok (static_str_to_js variant)
  | .vNewtypeStruct _ v => serializeValue env v
  | .vNewtypeVariant _ _ variant v =>
    variantSerializerEnd env variant (serializeValue env v)
  | .vSeq _ elems => (serializeElems env elems).map .array
  | .vTuple _ elems => (serializeElems env elems).map .array
  | .vTupleStruct _ _ elems => (serializeElems env elems).map .array
  | .vTupleVariant _ _ variant _ elems =>
    variantSerializerEnd env variant ((serializeElems env elems).map .array)
  | .vMap _ pairs =>
    match serializeMapPairs env ⟨[], none⟩ pairs with
    | .ok st =>
      if st.next_key.isSome then .panic
      else .ok (.jsMap st.target)
    | .error m => .error m
    | .panic => .panic
  | .vStruct _ _ fields =>
    (serializeStructFields env [] fields).map .obj
  | .vStructVariant _ _ variant _ fields =>
    variantSerializerEnd env variant
      ((serializeStructFields env [] fields).map .obj)

/-- `ArraySerializer`: `serialize_element` pushes each converted child (a
child failure aborts through `?`), `end` yields the array. -/
def serializeElems (env : HostEnv) : List Value → SerOutcome (List JsValue)
  | [] => .ok []
  | v :: rest =>
    match serializeValue env v with
    | .ok jv => (serializeElems env rest).map (fun js => jv :: js)
    | .error m => .error m
    | .panic => .panic

/-- The well-formed map driver: for each pair, `serialize_key` (the
`debug_assert!` fires — panic — when a key is already pending, then the key
converts and becomes `next_key`) followed by `serialize_value`
(`next_key.take().unwrap()` panics when no key is pending, then the value
converts and `Map::set` records the entry). -/
def serializeMapPairs (env : HostEnv) (st : MapSerializerState) :
    List (Value × Value) → SerOutcome MapSerializerState
  | [] => .ok st
  | (k, v) :: rest =>
    if st.next_key.isSome then .panic
    else
      match serializeValue env k with
      | .ok jk =>
        match serializeValue env v with
        | .ok jv => serializeMapPairs env ⟨st.target ++ [(jk, jv)], none⟩ rest
        | .error m => .error m
        | .panic => .panic
      | .error m => .error m
      | .panic => .panic

/-- `ObjectSerializer::serialize_field`, folded over the fields: convert the
value (`?` propagates failure), then `Reflect::set(target, key, value)`; a
host rejection is wrapped through `convert_error` and returned as the
error (`map_err(convert_error)?`). -/
def serializeStructFields (env : HostEnv) (target : List (String × JsValue)) :
    List (String × Value) → SerOutcome (List (String × JsValue))
  | [] => .ok target
  | (k, v) :: rest =>
    match serializeValue env v with
    | .ok jv =>
      match env.rejectSet target k jv with
      | some e => .error (convert_error e)
      | none => serializeStructFields env (objSet target k jv) rest
    | .error m => .error m
    | .panic => .panic

end

/-- `MapSerializer::serialize_key` as a standalone state transition:
`debug_assert!(self.next_key.is_none())` fires (panic) when a key is
already pending (the assertion is compiled in when debug assertions are
enabled); otherwise the key converts and becomes the pending `next_key`. -/
def mapSerializeKey (env : HostEnv) (st : MapSerializerState) (key : Value) :
    SerOutcome MapSerializerState :=
  if st.next_key.isSome then .panic
  else
    match serializeValue env key with
    | .ok jk => .ok ⟨st.target, some jk⟩
    | .error m => .error m
    | .panic => .panic

/-- `MapSerializer::serialize_value` as a standalone state transition:
`self.next_key.take().unwrap()` panics when no key is pending; otherwise
the value converts (`?` propagates its failure) and `Map::set` records the
pending-key/value entry, clearing `next_key`. -/
def mapSerializeValue (env : HostEnv) (st : MapSerializerState)
    (value : Value) : SerOutcome MapSerializerState :=
  match st.next_key with
  | none => .panic
  | some jk =>
    match serializeValue env value with
    | .ok jv => .ok ⟨st.target ++ [(jk, jv)], none⟩
    | .error m => .error m
    | .panic => .panic

/-- `MapSerializer::end`: `debug_assert!(self.next_key.is_none())` fires
(panic) when a key is still pending; otherwise the built `Map` is
returned. -/
def mapSerializeEnd (st : MapSerializerState) : SerOutcome JsValue :=
  if st.next_key.isSome then .panic
  else .ok (.jsMap st.target)

/-- `ObjectSerializer::serialize_field` as a standalone step: convert the
value (`?` propagates its failure), then `Reflect::set(target, key, jv)`;
a host rejection is wrapped through `convert_error` and returned as the
serializer error (`map_err(convert_error)?`). -/
def objectSerializeField (env : HostEnv) (target : List (String × JsValue))
    (key : String) (v : Value) : SerOutcome (List (String × JsValue)) :=
  match serializeValue env v with
  | .ok jv =>
    match env.rejectSet target key jv with
    | some e => .error (convert_error e)
    | none => .ok (objSet target key jv)
  | .error m => .error m
  | .panic => .panic

/-- The contents of the wasm linear-memory slice at `ptr`/`len` under
memory `mem`. -/
def wasmSlice (mem : Nat → Nat) (ptr len : Nat) : List Nat :=
  (List.range len).map (fun i => mem (ptr + i))

/-- `Uint8Array::view(v)`: an aliasing view of the wasm memory region of
the slice, invalidated by any later relocation of that memory. -/
def uint8ArrayView (ptr len : Nat) : JsBytes := .view ptr len

/-- Reading a JS byte buffer under the current wasm memory `mem`: a view
reads through to memory, a copy owns its data independently of `mem`. -/
def readJsBytes (mem : Nat → Nat) : JsBytes → List Nat
  | .view ptr len => wasmSlice mem ptr len
  | .copy data => data

/-- `Uint8Array::new(b)`: allocate a fresh JS-owned buffer holding the
current contents of `b`. -/
def uint8ArrayNew (mem : Nat → Nat) (b : JsBytes) : JsBytes :=
  .copy (readJsBytes mem b)

/-- `serialize_bytes` at the slice level: the `&[u8]` argument is the
region `ptr`/`len` of wasm memory `mem`; the view is created and
immediately copied (`Uint8Array::new` applied to the fresh view). -/
def serialize_bytes (mem : Nat → Nat) (ptr len : Nat) : SerOutcome JsValue :=
  .ok (.bytes (uint8ArrayNew mem (uint8ArrayView ptr len)))

/-- Whether an outcome is a reported serializer error value. -/
def SerOutcome.isError {α : Type} : SerOutcome α → Bool
  | .error _ => true
  | _ => false

/-- A host environment that rejects every `Reflect::set`, throwing a
`TypeError`. -/
def rejectAllEnv : HostEnv := ⟨fun _ _ _ => some "TypeError"⟩

/-- Every element of `vs` converts successfully. -/
def allOk (env : HostEnv) (vs : List Value) : Prop :=
  ∀ v ∈ vs, ∃ jv, serializeValue env v = .ok jv

/-- Every key and every value of the pairs `ps` converts successfully. -/
def pairsOk (env : HostEnv) (ps : List (Value × Value)) : Prop :=
  ∀ p ∈ ps, (∃ jk, serializeValue env p.1 = .ok jk) ∧
    ∃ jv, serializeValue env p.2 = .ok jv

/-- Every field value of `fs` converts successfully. -/
def fieldsOk (env : HostEnv) (fs : List (String × Value)) : Prop :=
  ∀ p ∈ fs, ∃ jv, serializeValue env p.2 = .ok jv

/-! ## Unfolding lemmas and builder/driver correspondence -/

theorem serializeValue_vI64 (env : HostEnv) (n : Int) :
    serializeValue env (.vI64 n) =
      if MIN_SAFE_INTEGER ≤ n ∧ n ≤ MAX_SAFE_INTEGER then .ok (.num n)
      else .error (unrepresentableMsg (toString n)) := rfl

theorem serializeValue_vU64 (env : HostEnv) (n : Nat) :
    serializeValue env (.vU64 n) =
      if n ≤ MAX_SAFE_INTEGER_U64 then .ok (.num n)
      else .error (unrepresentableMsg (toString n)) := rfl

theorem serializeValue_vSeq (env : HostEnv) (olen : Option Nat)
    (es : List Value) :
    serializeValue env (.vSeq olen es) = (serializeElems env es).map .array :=
  rfl

theorem serializeValue_vMap (env : HostEnv) (olen : Option Nat)
    (pairs : List (Value × Value)) :
    serializeValue env (.vMap olen pairs) =
      match serializeMapPairs env ⟨[], none⟩ pairs with
      | .ok st => mapSerializeEnd st
      | .error m => .error m
      | .panic => .panic := rfl

theorem serializeValue_vStruct (env : HostEnv) (name : String) (len : Nat)
    (fields : List (String × Value)) :
    serializeValue env (.vStruct name len fields) =
      (serializeStructFields env [] fields).map .obj := rfl

/-- The well-formed map driver performs exactly the `MapSerializer`
operation sequence: each pair is `serialize_key` then `serialize_value`. -/
theorem serializeMapPairs_cons (env : HostEnv) (st : MapSerializerState)
    (k v : Value) (rest : List (Value × Value)) :
    serializeMapPairs env st ((k, v) :: rest) =
      match mapSerializeKey env st k with
      | .ok st1 =>
        match mapSerializeValue env st1 v with
        | .ok st2 => serializeMapPairs env st2 rest
        | .error m => .error m
        | .panic => .panic
      | .error m => .error m
      | .panic => .panic := by
  rcases st with ⟨tgt, nk⟩
  cases nk with
  | none =>
    rw [serializeMapPairs]
    simp only [mapSerializeKey, mapSerializeValue, Option.isSome_none,
      Bool.false_eq_true, if_false]
    cases serializeValue env k <;> simp
    cases serializeValue env v <;> simp
  | some jk =>
    rw [serializeMapPairs]
    simp [mapSerializeKey]

/-- The struct driver performs exactly the `ObjectSerializer::serialize_field`
steps in field order. -/
theorem serializeStructFields_cons (env : HostEnv)
    (target : List (String × JsValue)) (k : String) (v : Value)
    (rest : List (String × Value)) :
    serializeStructFields env target ((k, v) :: rest) =
      match objectSerializeField env target k v with
      | .ok t2 => serializeStructFields env t2 rest
      | .error m => .error m
      | .panic => .panic := by
  rw [serializeStructFields]
  simp only [objectSerializeField]
  cases serializeValue env v with
  | ok jv => cases h : env.rejectSet target k jv <;> simp [h]
  | error m => simp
  | panic => simp

/-! ## Claims -/

/-- Claim C1: for every 64-bit integer value `v` (signed `vI64` or unsigned
`vU64`), the conversion succeeds and yields the host number equal to `v`
if and only if `|v| ≤ 9007199254740991` (2^53 − 1); any value outside this
range fails with the error message naming the offending value. -/
theorem claim_C1 (env : HostEnv) (n : Int) (m : Nat)
    (hn1 : -(2 ^ 63) ≤ n) (hn2 : n < 2 ^ 63) (hm : m < 2 ^ 64) :
    ((serializeValue env (.vI64 n) = .ok (.num n)) ↔
      n.natAbs ≤ 9007199254740991) ∧
    (9007199254740991 < n.natAbs →
      serializeValue env (.vI64 n) =
        .error (unrepresentableMsg (toString n))) ∧
    ((serializeValue env (.vU64 m) = .ok (.num m)) ↔
      m ≤ 9007199254740991) ∧
    (9007199254740991 < m →
      serializeValue env (.vU64 m) =
        .error (unrepresentableMsg (toString m))) := by
  have hiff : (MIN_SAFE_INTEGER ≤ n ∧ n ≤ MAX_SAFE_INTEGER) ↔
      n.natAbs ≤ 9007199254740991 := by
    simp only [MIN_SAFE_INTEGER, MAX_SAFE_INTEGER]
    omega
  refine ⟨?_, ?_, ?_, ?_⟩
  · rw [serializeValue_vI64]
    by_cases h : MIN_SAFE_INTEGER ≤ n ∧ n ≤ MAX_SAFE_INTEGER
    · rw [if_pos h]
      simpa using hiff.mp h
    · rw [if_neg h]
      constructor
      · intro hc
        exact absurd hc (by simp)
      · intro habs
        exact absurd (hiff.mpr habs) h
  · intro habs
    rw [serializeValue_vI64, if_neg]
    intro h
    have := hiff.mp h
    omega
  · rw [serializeValue_vU64]
    by_cases h : m ≤ MAX_SAFE_INTEGER_U64
    · rw [if_pos h]
      simp only [MAX_SAFE_INTEGER_U64] at h
      simpa using h
    · rw [if_neg h]
      simp only [MAX_SAFE_INTEGER_U64] at h
      constructor
      · intro hc
        exact absurd hc (by simp)
      · intro habs
        omega
  · intro habs
    rw [serializeValue_vU64, if_neg]
    simp only [MAX_SAFE_INTEGER_U64]
    omega

/-- Witness for C1 at the four boundary values the spec names. -/
theorem claim_C1_witness :
    serializeValue stdEnv (.vI64 9007199254740991) =
      .ok (.num 9007199254740991) ∧
    serializeValue stdEnv (.vI64 (-9007199254740991)) =
      .ok (.num (-9007199254740991)) ∧
    serializeValue stdEnv (.vI64 9007199254740992) =
      .error (unrepresentableMsg (toString (9007199254740992 : Int))) ∧
    serializeValue stdEnv (.vI64 (-9007199254740992)) =
      .error (unrepresentableMsg (toString (-9007199254740992 : Int))) ∧
    serializeValue stdEnv (.vU64 9007199254740991) =
      .ok (.num 9007199254740991) ∧
    serializeValue stdEnv (.vU64 9007199254740992) =
      .error (unrepresentableMsg (toString (9007199254740992 : Nat))) := by
  have h1 := claim_C1 stdEnv 9007199254740991 9007199254740991
    (by decide) (by decide) (by decide)
  have h2 := claim_C1 stdEnv (-9007199254740991) 9007199254740992
    (by decide) (by decide) (by decide)
  have h3 := claim_C1 stdEnv 9007199254740992 9007199254740991
    (by decide) (by decide) (by decide)
  have h4 := claim_C1 stdEnv (-9007199254740992) 9007199254740992
    (by decide) (by decide) (by decide)
  exact ⟨h1.1.mpr (by decide), h2.1.mpr (by decide),
    h3.2.1 (by decide), h4.2.1 (by decide),
    h1.2.2.1.mpr (by decide), h2.2.2.2 (by decide)⟩

/-- Claim C4: converting a byte slice produces a freshly allocated host
buffer (`JsBytes.copy`) whose contents equal the wasm source slice at
conversion time, and reading the converted buffer under any later memory
state `mem2` (i.e. after arbitrary mutation of the source region) still
yields those conversion-time contents: the output is a copy, never a
retained view. -/
theorem claim_C4 (env : HostEnv) (mem mem2 : Nat → Nat) (ptr len : Nat) :
    serialize_bytes mem ptr len =
      .ok (.bytes (.copy (wasmSlice mem ptr len))) ∧
    readJsBytes mem2 (.copy (wasmSlice mem ptr len)) =
      wasmSlice mem ptr len ∧
    serializeValue env (.vBytes (wasmSlice mem ptr len)) =
      serialize_bytes mem ptr len :=
  ⟨rfl, rfl, rfl⟩

/-- Claim C5: `none`, `unit` and every unit-struct all convert to the same
single host absent-value sentinel (`undefined`), and `some v` converts to
exactly the conversion of `v`, with no additional wrapper. -/
theorem claim_C5 (env : HostEnv) (name : String) (v : Value) :
    serializeValue env .vNone = .ok .undefined ∧
    serializeValue env .vUnit = .ok .undefined ∧
    serializeValue env (.vUnitStruct name) = .ok .undefined ∧
    serializeValue env (.vSome v) = serializeValue env v :=
  ⟨rfl, rfl, rfl, rfl⟩

/-- Claim C9: tuple and tuple-struct conversion are identical to sequence
conversion, whatever the declared arity (`len`, `len2`) and length hint
(`olen`), and the sequence conversion is the host array of the children
conversions in input order. -/
theorem claim_C9 (env : HostEnv) (olen : Option Nat) (len len2 : Nat)
    (name : String) (es : List Value) :
    serializeValue env (.vTuple len es) = serializeValue env (.vSeq olen es) ∧
    serializeValue env (.vTupleStruct name len2 es) =
      serializeValue env (.vSeq olen es) ∧
    serializeValue env (.vSeq olen es) = (serializeElems env es).map .array :=
  ⟨rfl, rfl, rfl⟩

/-- Claim C10: the conversion result never consults the enum/struct
type-name parameter nor the numeric variant-index parameter: two runs
differing only in those parameters produce identical host values, at every
entry point that takes them. -/
theorem claim_C10 (env : HostEnv) (name name2 : String) (idx idx2 : Nat)
    (variant : String) (v : Value) (len : Nat) (es : List Value)
    (fields : List (String × Value)) :
    serializeValue env (.vUnitStruct name) =
      serializeValue env (.vUnitStruct name2) ∧
    serializeValue env (.vUnitVariant name idx variant) =
      serializeValue env (.vUnitVariant name2 idx2 variant) ∧
    serializeValue env (.vNewtypeStruct name v) =
      serializeValue env (.vNewtypeStruct name2 v) ∧
    serializeValue env (.vNewtypeVariant name idx variant v) =
      serializeValue env (.vNewtypeVariant name2 idx2 variant v) ∧
    serializeValue env (.vTupleStruct name len es) =
      serializeValue env (.vTupleStruct name2 len es) ∧
    serializeValue env (.vTupleVariant name idx variant len es) =
      serializeValue env (.vTupleVariant name2 idx2 variant len es) ∧
    serializeValue env (.vStruct name len fields) =
      serializeValue env (.vStruct name2 len fields) ∧
    serializeValue env (.vStructVariant name idx variant len fields) =
      serializeValue env (.vStructVariant name2 idx2 variant len fields) :=
  ⟨rfl, rfl, rfl, rfl, rfl, rfl, rfl, rfl⟩

/-- Claim C2: a unit variant with variant name `variant` converts to the
bare host string `variant`; a newtype / tuple / struct variant with
variant name `variant` and successfully converted payload converts to a
fresh host record with exactly one field, named `variant`, holding
respectively the bare payload conversion, the array of the element
conversions, and the record of the field conversions. -/
theorem claim_C2 (env : HostEnv) (name variant : String) (idx len : Nat)
    (p : Value) (jp : JsValue) (es : List Value) (js : List JsValue)
    (fields : List (String × Value)) (gs : List (String × JsValue))
    (hp : serializeValue env p = .ok jp)
    (hes : serializeElems env es = .ok js)
    (hfs : serializeStructFields env [] fields = .ok gs)
    (hreject : ∀ k v, env.rejectSet [] k v = none) :
    serializeValue env (.vUnitVariant name idx variant) =
      .ok (.str variant) ∧
    serializeValue env (.vNewtypeVariant name idx variant p) =
      .ok (.obj [(variant, jp)]) ∧
    serializeValue env (.vTupleVariant name idx variant len es) =
      .ok (.obj [(variant, .array js)]) ∧
    serializeValue env (.vStructVariant name idx variant len fields) =
      .ok (.obj [(variant, .obj gs)]) := by
  refine ⟨rfl, ?_, ?_, ?_⟩
  · show variantSerializerEnd env variant (serializeValue env p) = _
    rw [hp]
    simp [variantSerializerEnd, hreject]
  · show variantSerializerEnd env variant
      ((serializeElems env es).map .array) = _
    rw [hes]
    simp [variantSerializerEnd, SerOutcome.map, hreject]
  · show variantSerializerEnd env variant
      ((serializeStructFields env [] fields).map .obj) = _
    rw [hfs]
    simp [variantSerializerEnd, SerOutcome.map, hreject]

/-- Witness for C2: the four variant shapes of the spec example
(`Foo`, `Bar(5)`, `Baz(1, 2)`, `Qux{a: 1}`). -/
theorem claim_C2_witness :
    serializeValue stdEnv (.vUnitVariant "E" 0 "Foo") = .ok (.str "Foo") ∧
    serializeValue stdEnv (.vNewtypeVariant "E" 0 "Bar" (.vI8 5)) =
      .ok (.obj [("Bar", .num 5)]) ∧
    serializeValue stdEnv (.vTupleVariant "E" 0 "Baz" 2 [.vI8 1, .vI8 2]) =
      .ok (.obj [("Baz", .array [.num 1, .num 2])]) ∧
    serializeValue stdEnv (.vStructVariant "E" 0 "Qux" 2 [("a", .vI8 1)]) =
      .ok (.obj [("Qux", .obj [("a", .num 1)])]) := by
  refine ⟨?_, ?_, ?_, ?_⟩
  · exact (claim_C2 stdEnv "E" "Foo" 0 2 (.vI8 5) (.num 5)
      [.vI8 1, .vI8 2] [.num 1, .num 2] [("a", .vI8 1)] [("a", .num 1)]
      rfl rfl rfl (fun _ _ => rfl)).1
  · exact (claim_C2 stdEnv "E" "Bar" 0 2 (.vI8 5) (.num 5)
      [.vI8 1, .vI8 2] [.num 1, .num 2] [("a", .vI8 1)] [("a", .num 1)]
      rfl rfl rfl (fun _ _ => rfl)).2.1
  · exact (claim_C2 stdEnv "E" "Baz" 0 2 (.vI8 5) (.num 5)
      [.vI8 1, .vI8 2] [.num 1, .num 2] [("a", .vI8 1)] [("a", .num 1)]
      rfl rfl rfl (fun _ _ => rfl)).2.2.1
  · exact (claim_C2 stdEnv "E" "Qux" 0 2 (.vI8 5) (.num 5)
      [.vI8 1, .vI8 2] [.num 1, .num 2] [("a", .vI8 1)] [("a", .num 1)]
      rfl rfl rfl (fun _ _ => rfl)).2.2.2

/-- Claim C3: the key/value alternation protocol of the Map builder is enforced:
in every builder state, `serialize_key` with a key already pending,
`serialize_value` with no pending key, and `end` with a key pending are
each rejected by an assertion/panic rather than proceeding silently. -/
theorem claim_C3 (env : HostEnv) (st : MapSerializerState) :
    (st.next_key.isSome = true →
      ∀ key, mapSerializeKey env st key = .panic) ∧
    (st.next_key = none →
      ∀ value, mapSerializeValue env st value = .panic) ∧
    (st.next_key.isSome = true → mapSerializeEnd st = .panic) := by
  refine ⟨fun h key => ?_, fun h value => ?_, fun h => ?_⟩
  · simp [mapSerializeKey, h]
  · simp [mapSerializeValue, h]
  · simp [mapSerializeEnd, h]

/-- Witness for C3: the three malformed producer moves, each from a
concrete builder state, all panic. -/
theorem claim_C3_witness :
    mapSerializeKey stdEnv ⟨[], some .undefined⟩ (.vBool true) = .panic ∧
    mapSerializeValue stdEnv ⟨[], none⟩ (.vBool true) = .panic ∧
    mapSerializeEnd ⟨[], some .undefined⟩ = .panic :=
  ⟨(claim_C3 stdEnv ⟨[], some .undefined⟩).1 rfl (.vBool true),
   (claim_C3 stdEnv ⟨[], none⟩).2.1 rfl (.vBool true),
   (claim_C3 stdEnv ⟨[], some .undefined⟩).2.2 rfl⟩

/-- Counterexample to C7 as stated: with a host that rejects the
assignment, the tagged-record construction of the variant wrapper
(`VariantSerializer::end`, which calls `Reflect::set(..).unwrap()`)
panics — the failure is not reported to the caller as the error value of
the conversion. -/
theorem claim_C7_counterexample :
    serializeValue rejectAllEnv (.vNewtypeVariant "E" 0 "Bar" (.vBool true)) =
      .panic ∧
    (serializeValue rejectAllEnv
      (.vNewtypeVariant "E" 0 "Bar" (.vBool true))).isError = false :=
  ⟨rfl, rfl⟩

/-- Claim C7 (amended): when the host rejects the low-level field
assignment, the Record Builder (`ObjectSerializer::serialize_field`) wraps
the rejection through `convert_error` and reports it as the error value
of the conversion; the tagged-record construction of the variant wrapper
(`VariantSerializer::end`) instead aborts with an unrecoverable panic
(`unwrap`), not an error value. -/
theorem claim_C7 (env : HostEnv) (target : List (String × JsValue))
    (key : String) (v : Value) (jv : JsValue) (e : String)
    (variant : String) (payload : JsValue)
    (hv : serializeValue env v = .ok jv)
    (hrej : env.rejectSet target key jv = some e)
    (hrej2 : env.rejectSet [] variant payload = some e) :
    objectSerializeField env target key v = .error (convert_error e) ∧
    variantSerializerEnd env variant (.ok payload) = .panic := by
  constructor
  · simp [objectSerializeField, hv, hrej]
  · simp [variantSerializerEnd, hrej2]

/-- Witness for C7 (amended) at a concrete rejecting host. -/
theorem claim_C7_witness :
    objectSerializeField rejectAllEnv [] "a" (.vBool true) =
      .error (convert_error "TypeError") ∧
    variantSerializerEnd rejectAllEnv "Bar" (.ok (.num 5)) = .panic :=
  claim_C7 rejectAllEnv [] "a" (.vBool true) (.bool true) "TypeError"
    "Bar" (.num 5) rfl rfl rfl

/-- `Reflect::set` with a property name not yet present appends the new
field (JS property creation order). -/
theorem objSet_append (fields : List (String × JsValue)) (k : String)
    (v : JsValue) (h : k ∉ fields.map Prod.fst) :
    objSet fields k v = fields ++ [(k, v)] := by
  have hany : fields.any (fun p => p.1 = k) = false := by
    rw [List.any_eq_false]
    intro p hp
    simp only [decide_eq_true_eq]
    intro hpk
    exact h (hpk ▸ List.mem_map_of_mem Prod.fst hp)
  simp only [objSet, hany]
  simp

/-- Folding the Record Builder over fields with fresh, pairwise-distinct
labels and successfully converting values appends them in arrival order. -/
theorem serializeStructFields_ok_order (fields : List (String × Value)) :
    ∀ target : List (String × JsValue),
      fieldsOk stdEnv fields →
      (∀ p ∈ fields, p.1 ∉ target.map Prod.fst) →
      (fields.map Prod.fst).Nodup →
      ∃ gs, serializeStructFields stdEnv target fields = .ok (target ++ gs) ∧
        gs.map Prod.fst = fields.map Prod.fst := by
  induction fields with
  | nil =>
    intro target _ _ _
    exact ⟨[], by simp [serializeStructFields], rfl⟩
  | cons f rest ih =>
    intro target hok hfresh hnodup
    obtain ⟨k, v⟩ := f
    obtain ⟨jv, hjv⟩ := hok (k, v) (List.mem_cons_self _ _)
    have hknot : k ∉ target.map Prod.fst := hfresh (k, v) (List.mem_cons_self _ _)
    have hrest_ok : fieldsOk stdEnv rest :=
      fun p hp => hok p (List.mem_cons_of_mem _ hp)
    have hnd := hnodup
    simp only [List.map_cons, List.nodup_cons] at hnd
    have hfresh2 : ∀ p ∈ rest, p.1 ∉ (target ++ [(k, jv)]).map Prod.fst := by
      intro p hp
      simp only [List.map_append, List.mem_append, List.map_cons,
        List.map_nil, List.mem_singleton]
      rintro (hmem | hmem)
      · exact hfresh p (List.mem_cons_of_mem _ hp) hmem
      · exact hnd.1 (hmem ▸ List.mem_map_of_mem Prod.fst hp)
    obtain ⟨gs, hgs, hmap⟩ := ih (target ++ [(k, jv)]) hrest_ok hfresh2 hnd.2
    refine ⟨(k, jv) :: gs, ?_, by simp [hmap]⟩
    rw [serializeStructFields_cons]
    have hjv2 : serializeValue stdEnv v = .ok jv := hjv
    have hfield : objectSerializeField stdEnv target k v =
        .ok (target ++ [(k, jv)]) := by
      simp only [objectSerializeField]
      rw [hjv2]
      show SerOutcome.ok (objSet target k jv) = _
      rw [objSet_append _ _ _ hknot]
    rw [hfield]
    show serializeStructFields stdEnv (target ++ [(k, jv)]) rest = _
    rw [hgs]
    simp

/-- Claim C8: converting a struct with fields in declaration order yields a
host record whose field enumeration order is exactly the declaration
order, provided each field converts and labels are pairwise distinct (as
they are for a real struct). -/
theorem claim_C8 (name : String) (len : Nat) (fields : List (String × Value))
    (hok : fieldsOk stdEnv fields)
    (hnodup : (fields.map Prod.fst).Nodup) :
    ∃ gs, serializeValue stdEnv (.vStruct name len fields) = .ok (.obj gs) ∧
      gs.map Prod.fst = fields.map Prod.fst := by
  obtain ⟨gs, hgs, hmap⟩ :=
    serializeStructFields_ok_order fields [] hok (by simp) hnodup
  refine ⟨gs, ?_, hmap⟩
  rw [serializeValue_vStruct, hgs]
  simp [SerOutcome.map]

/-- Witness for C8: a struct with fields declared `(a, b, c)`. -/
theorem claim_C8_witness :
    ∃ gs, serializeValue stdEnv
        (.vStruct "S" 3 [("a", .vI8 1), ("b", .vI8 2), ("c", .vI8 3)]) =
        .ok (.obj gs) ∧
      gs.map Prod.fst = ["a", "b", "c"] := by
  have h := claim_C8 "S" 3 [("a", .vI8 1), ("b", .vI8 2), ("c", .vI8 3)]
    (by
      intro p hp
      simp only [List.mem_cons, List.not_mem_nil, or_false] at hp
      rcases hp with rfl | rfl | rfl <;> exact ⟨_, rfl⟩)
    (by decide)
  simpa using h

/-- A failing element aborts the Sequence Builder with that error. -/
theorem serializeElems_mid_error (env : HostEnv) (m : String) :
    ∀ (pre : List Value) (c : Value) (post : List Value),
      allOk env pre → serializeValue env c = .error m →
      serializeElems env (pre ++ c :: post) = .error m := by
  intro pre
  induction pre with
  | nil =>
    intro c post _ hc
    simp only [List.nil_append, serializeElems, hc]
  | cons u rest ih =>
    intro c post hpre hc
    obtain ⟨ju, hu⟩ := hpre u (List.mem_cons_self _ _)
    simp only [List.cons_append, serializeElems, hu]
    rw [show serializeElems env (rest.append (c :: post)) = .error m from
      ih c post (fun w hw => hpre w (List.mem_cons_of_mem _ hw)) hc]
    rfl

/-- A failing key aborts the Map Builder fold with that error. -/
theorem serializeMapPairs_key_error (env : HostEnv) (m : String) :
    ∀ (pre : List (Value × Value)) (k v : Value)
      (post : List (Value × Value)) (target : List (JsValue × JsValue)),
      pairsOk env pre → serializeValue env k = .error m →
      serializeMapPairs env ⟨target, none⟩ (pre ++ (k, v) :: post) =
        .error m := by
  intro pre
  induction pre with
  | nil =>
    intro k v post target _ hk
    simp [serializeMapPairs, hk]
  | cons q rest ih =>
    intro k v post target hpre hk
    obtain ⟨⟨jk0, hk0⟩, jv0, hv0⟩ := hpre q (List.mem_cons_self _ _)
    obtain ⟨qk, qv⟩ := q
    simp only [List.cons_append, serializeMapPairs, Option.isSome_none,
      Bool.false_eq_true, if_false, hk0, hv0]
    exact ih k v post _ (fun w hw => hpre w (List.mem_cons_of_mem _ hw)) hk

/-- A failing value (after a successful key) aborts the Map Builder fold
with that error. -/
theorem serializeMapPairs_value_error (env : HostEnv) (m : String) :
    ∀ (pre : List (Value × Value)) (k v : Value)
      (post : List (Value × Value)) (target : List (JsValue × JsValue))
      (jk : JsValue),
      pairsOk env pre → serializeValue env k = .ok jk →
      serializeValue env v = .error m →
      serializeMapPairs env ⟨target, none⟩ (pre ++ (k, v) :: post) =
        .error m := by
  intro pre
  induction pre with
  | nil =>
    intro k v post target jk _ hk hv
    simp [serializeMapPairs, hk, hv]
  | cons q rest ih =>
    intro k v post target jk hpre hk hv
    obtain ⟨⟨jk0, hk0⟩, jv0, hv0⟩ := hpre q (List.mem_cons_self _ _)
    obtain ⟨qk, qv⟩ := q
    simp only [List.cons_append, serializeMapPairs, Option.isSome_none,
      Bool.false_eq_true, if_false, hk0, hv0]
    exact ih k v post _ jk (fun w hw => hpre w (List.mem_cons_of_mem _ hw))
      hk hv

/-- A failing field value aborts the Record Builder fold with that error
(under a host that accepts the preceding assignments). -/
theorem serializeStructFields_mid_error (env : HostEnv) (m : String)
    (henv : ∀ t k v, env.rejectSet t k v = none) :
    ∀ (pre : List (String × Value)) (k : String) (v : Value)
      (post : List (String × Value)) (target : List (String × JsValue)),
      fieldsOk env pre → serializeValue env v = .error m →
      serializeStructFields env target (pre ++ (k, v) :: post) =
        .error m := by
  intro pre
  induction pre with
  | nil =>
    intro k v post target _ hv
    simp only [List.nil_append, serializeStructFields, hv]
  | cons f rest ih =>
    intro k v post target hpre hv
    obtain ⟨k0, v0⟩ := f
    obtain ⟨jv0, hv0⟩ := hpre (k0, v0) (List.mem_cons_self _ _)
    have hv02 : serializeValue env v0 = .ok jv0 := hv0
    simp only [List.cons_append, serializeStructFields, hv02, henv]
    exact ih k v post _ (fun w hw => hpre w (List.mem_cons_of_mem _ hw)) hv

/-- Claim C6: failure propagation is atomic — for every composite
(sequence, tuple, tuple-struct, map, struct, and every non-unit variant),
if the conversion of any child element, key, value, or field fails with an
error, the whole composite conversion fails with that error (no partial
host value is returned: the outcome is the error, not an `ok`). -/
theorem claim_C6 (m : String) :
    (∀ (olen : Option Nat) (len : Nat) (name : String) (idx : Nat)
      (variant : String) (pre : List Value) (c : Value) (post : List Value),
      allOk stdEnv pre → serializeValue stdEnv c = .error m →
      serializeValue stdEnv (.vSeq olen (pre ++ c :: post)) = .error m ∧
      serializeValue stdEnv (.vTuple len (pre ++ c :: post)) = .error m ∧
      serializeValue stdEnv (.vTupleStruct name len (pre ++ c :: post)) =
        .error m ∧
      serializeValue stdEnv
        (.vTupleVariant name idx variant len (pre ++ c :: post)) =
        .error m) ∧
    (∀ (name : String) (idx : Nat) (variant : String) (p : Value),
      serializeValue stdEnv p = .error m →
      serializeValue stdEnv (.vNewtypeVariant name idx variant p) =
        .error m) ∧
    (∀ (p : Value), serializeValue stdEnv p = .error m →
      serializeValue stdEnv (.vSome p) = .error m) ∧
    (∀ (olen : Option Nat) (pre : List (Value × Value)) (k v : Value)
      (post : List (Value × Value)),
      pairsOk stdEnv pre → serializeValue stdEnv k = .error m →
      serializeValue stdEnv (.vMap olen (pre ++ (k, v) :: post)) =
        .error m) ∧
    (∀ (olen : Option Nat) (pre : List (Value × Value)) (k v : Value)
      (post : List (Value × Value)) (jk : JsValue),
      pairsOk stdEnv pre → serializeValue stdEnv k = .ok jk →
      serializeValue stdEnv v = .error m →
      serializeValue stdEnv (.vMap olen (pre ++ (k, v) :: post)) =
        .error m) ∧
    (∀ (name : String) (idx : Nat) (variant : String) (len : Nat)
      (pre : List (String × Value)) (k : String) (v : Value)
      (post : List (String × Value)),
      fieldsOk stdEnv pre → serializeValue stdEnv v = .error m →
      serializeValue stdEnv (.vStruct name len (pre ++ (k, v) :: post)) =
        .error m ∧
      serializeValue stdEnv
        (.vStructVariant name idx variant len (pre ++ (k, v) :: post)) =
        .error m) := by
  have hstd : ∀ t k v, stdEnv.rejectSet t k v = none := fun _ _ _ => rfl
  refine ⟨?_, ?_, ?_, ?_, ?_, ?_⟩
  · intro olen len name idx variant pre c post hpre hc
    have hel := serializeElems_mid_error stdEnv m pre c post hpre hc
    refine ⟨?_, ?_, ?_, ?_⟩
    · rw [serializeValue_vSeq, hel]
      rfl
    · show (serializeElems stdEnv (pre ++ c :: post)).map JsValue.array = _
      rw [hel]
      rfl
    · show (serializeElems stdEnv (pre ++ c :: post)).map JsValue.array = _
      rw [hel]
      rfl
    · show variantSerializerEnd stdEnv variant
        ((serializeElems stdEnv (pre ++ c :: post)).map JsValue.array) = _
      rw [hel]
      rfl
  · intro name idx variant p hp
    show variantSerializerEnd stdEnv variant (serializeValue stdEnv p) = _
    rw [hp]
    rfl
  · intro p hp
    show serializeValue stdEnv p = _
    exact hp
  · intro olen pre k v post hpre hk
    rw [serializeValue_vMap,
      serializeMapPairs_key_error stdEnv m pre k v post [] hpre hk]
  · intro olen pre k v post jk hpre hk hv
    rw [serializeValue_vMap,
      serializeMapPairs_value_error stdEnv m pre k v post [] jk hpre hk hv]
  · intro name idx variant len pre k v post hpre hv
    have hsf :=
      serializeStructFields_mid_error stdEnv m hstd pre k v post [] hpre hv
    constructor
    · rw [serializeValue_vStruct, hsf]
      rfl
    · show variantSerializerEnd stdEnv variant
        ((serializeStructFields stdEnv [] (pre ++ (k, v) :: post)).map
          JsValue.obj) = _
      rw [hsf]
      rfl

/-- Witness for C6: an out-of-range `i64` child aborts a sequence, a map
(both in key and in value position) and a struct with the same error. -/
theorem claim_C6_witness :
    serializeValue stdEnv
      (.vSeq none [.vBool true, .vI64 9007199254740992, .vUnit]) =
      .error (unrepresentableMsg (toString (9007199254740992 : Int))) ∧
    serializeValue stdEnv
      (.vMap none [(.vStr "a", .vBool true), (.vI64 9007199254740992, .vUnit)]) =
      .error (unrepresentableMsg (toString (9007199254740992 : Int))) ∧
    serializeValue stdEnv
      (.vMap none [(.vStr "a", .vI64 9007199254740992)]) =
      .error (unrepresentableMsg (toString (9007199254740992 : Int))) ∧
    serializeValue stdEnv
      (.vStruct "S" 2 [("a", .vBool true), ("b", .vI64 9007199254740992)]) =
      .error (unrepresentableMsg (toString (9007199254740992 : Int))) := by
  have h := claim_C6 (unrepresentableMsg (toString (9007199254740992 : Int)))
  refine ⟨?_, ?_, ?_, ?_⟩
  · exact (h.1 none 0 "S" 0 "V" [.vBool true] (.vI64 9007199254740992)
      [.vUnit]
      (by
        intro u hu
        rw [List.mem_singleton] at hu
        subst hu
        exact ⟨_, rfl⟩)
      rfl).1
  · exact h.2.2.2.1 none [(.vStr "a", .vBool true)] (.vI64 9007199254740992)
      .vUnit []
      (by
        intro q hq
        rw [List.mem_singleton] at hq
        subst hq
        exact ⟨⟨_, rfl⟩, _, rfl⟩)
      rfl
  · exact h.2.2.2.2.1 none [] (.vStr "a") (.vI64 9007199254740992) []
      (.str "a") (by intro q hq; cases hq) rfl rfl
  · exact (h.2.2.2.2.2 "S" 0 "V" 2 [("a", .vBool true)] "b"
      (.vI64 9007199254740992) []
      (by
        intro q hq
        rw [List.mem_singleton] at hq
        subst hq
        exact ⟨_, rfl⟩)
      rfl).1

end SerdeWasmBindgen
